import Mathlib

/-!
# Mirror-Store push-notification functions: shallow embedding

This file embeds the serverless handlers of `cloud-functions-index.js`
(token fan-out, reconciliation of failed tokens, update trigger, scheduled
cleanup, stats aggregation) as executable Lean definitions and proves the
specified properties about them.

External collaborators are modelled explicitly:
* the document store is a `List TokenDoc` (one entry per document of the
  `notification_tokens` collection);
* the push provider's multicast result is a `List Outcome` aligned
  positionally with the token list handed to it;
* the possibility that a store operation fails is injected through Boolean
  oracles (`queryOk` for a `.where(...).get()` lookup, `deleteOk` for an
  individual `doc.ref.delete()` — the latter is *not* awaited by the source,
  so its failure never surfaces to the handler's control flow).
-/

namespace MirrorStore

/-- Error taxonomy of per-handle delivery outcomes (spec §4.2). -/
inductive ErrorKind
  | InvalidHandle
  | TransientFailure
  | QuotaExceeded
deriving DecidableEq

/-- One per-token delivery outcome of a multicast: `success` in the source is
`resp.success`; an error kind is present exactly on failure. -/
structure Outcome where
  errorKind : Option ErrorKind
deriving DecidableEq

/-- `resp.success`: an outcome succeeded iff it carries no error. -/
def Outcome.success (o : Outcome) : Bool :=
  o.errorKind.isNone

/-- A document of the `notification_tokens` collection.  `docExists` models
`doc.exists`; a missing or empty `token` field is the falsy case of
`doc.data().token`, modelled as `""`. -/
structure TokenDoc where
  id : Nat
  docExists : Bool
  token : String
  timestamp : Int
deriving DecidableEq

/-- Token fetching (lines 38-46 / 161-168 / 220-227 of the source): walk the
snapshot, keep the `token` field of each existing document when it is truthy. -/
def collectTokens (store : List TokenDoc) : List String :=
  store.filterMap fun d =>
    if d.docExists then (if d.token = "" then none else some d.token) else none

/-- successCount of the provider's multicast response. -/
def successCount (outcomes : List Outcome) : Nat :=
  (outcomes.filter fun o => o.success).length

/-- failureCount of the provider's multicast response. -/
def failureCount (outcomes : List Outcome) : Nat :=
  (outcomes.filter fun o => !o.success).length

/-- Lines 96-98: `responses.map((resp, idx) => resp.success ? null :
tokens[idx]).filter(token => token)`. -/
def failedTokens (tokens : List String) (outcomes : List Outcome) : List String :=
  ((outcomes.zip tokens).filterMap fun p =>
    if p.1.success then none else some p.2).filter fun t => t != ""

/-- Line 103: delete every document the `where('token','==',t)` query returned.
Each `doc.ref.delete()` is fire-and-forget in the source; a delete whose
`deleteOk` oracle is `false` rejects unobserved and leaves the document. -/
def deleteTokenDocs (deleteOk : Nat → Bool) (t : String) (store : List TokenDoc) :
    List TokenDoc :=
  store.filter fun d => !(d.token == t && deleteOk d.id)

/-- Lines 100-105: the reconciliation loop over `failedTokens`.  The lookup
query for each token is awaited, so a `queryOk`-failure throws into the
handler's `catch` (flag `false`); the per-document deletes are not awaited.
Returns the resulting store and whether the loop ran to completion. -/
def reconcile (queryOk : String → Bool) (deleteOk : Nat → Bool) :
    List String → List TokenDoc → List TokenDoc × Bool
  | [], store => (store, true)
  | t :: rest, store =>
    if queryOk t then reconcile queryOk deleteOk rest (deleteTokenDocs deleteOk t store)
    else (store, false)

/-- Body of a `POST /send-notification` request; absent fields are `none`,
and JS truthiness of a string field is `jsTruthy`. -/
structure SendReq where
  method : String
  appId : Option String
  appName : Option String
  type : Option String
  title : Option String
  body : Option String
  icon : Option String
  downloadUrl : Option String

/-- JS truthiness of an optional string field: `undefined` and `""` are falsy. -/
def jsTruthy : Option String → Bool
  | none => false
  | some s => s != ""

/-- The response statuses `sendNotification` can produce. -/
inductive HttpResponse
  | ok (successCount failureCount totalSent : Nat)
  | badRequest
  | notFound
  | methodNotAllowed
  | serverError
deriving DecidableEq

/-- Observable result of one `sendNotification` invocation: the HTTP response,
whether the token collection was read, whether and with which token list the
provider's multicast was invoked, and the final store contents. -/
structure SendResult where
  response : HttpResponse
  storeRead : Bool
  gatewayCalled : Bool
  gatewayTokens : List String
  finalStore : List TokenDoc
deriving DecidableEq

/-- Lines 23-123: the `sendNotification` handler.  `outcomes` is the
provider's per-token response list; `queryOk`/`deleteOk` are the store-failure
oracles of the reconciliation step. -/
def sendNotification (req : SendReq) (store : List TokenDoc) (outcomes : List Outcome)
    (queryOk : String → Bool) (deleteOk : Nat → Bool) : SendResult :=
  if req.method != "POST" then
    ⟨.methodNotAllowed, false, false, [], store⟩
  else if !(jsTruthy req.appId) || !(jsTruthy req.type) then
    ⟨.badRequest, false, false, [], store⟩
  else
    let tokens := collectTokens store
    if tokens.length = 0 then
      ⟨.notFound, true, false, [], store⟩
    else
      let sc := successCount outcomes
      let fc := failureCount outcomes
      if 0 < fc then
        let r := reconcile queryOk deleteOk (failedTokens tokens outcomes) store
        if r.2 then ⟨.ok sc fc tokens.length, true, true, tokens, r.1⟩
        else ⟨.serverError, true, true, tokens, r.1⟩
      else
        ⟨.ok sc fc tokens.length, true, true, tokens, store⟩

/-- Body of a `POST /send-progress` request.  `progress` is a number; the
source tests it with `progress === undefined`, so `some 0` is present. -/
structure ProgressReq where
  appId : Option String
  appName : Option String
  progress : Option Int
  deviceToken : Option String

/-- The response statuses `sendDownloadProgress` can produce. -/
inductive ProgressResponse
  | okSingle
  | okBroadcast (successCount failureCount : Nat)
  | badRequest
  | notFound
deriving DecidableEq

/-- Observable result of one `sendDownloadProgress` invocation. -/
structure ProgressResult where
  response : ProgressResponse
  storeRead : Bool
  gatewayCalled : Bool
deriving DecidableEq

/-- Lines 129-198: the `sendDownloadProgress` handler. -/
def sendDownloadProgress (req : ProgressReq) (store : List TokenDoc)
    (outcomes : List Outcome) : ProgressResult :=
  if !(jsTruthy req.appId) || req.progress.isNone then
    ⟨.badRequest, false, false⟩
  else if jsTruthy req.deviceToken then
    ⟨.okSingle, false, true⟩
  else
    let tokens := collectTokens store
    if tokens.length = 0 then
      ⟨.notFound, true, false⟩
    else
      ⟨.okBroadcast (successCount outcomes) (failureCount outcomes), true, true⟩

/-- The fields of an `apps/{appId}` document the update trigger inspects;
`version` is `none` when the field is absent (and `undefined === undefined`
holds in JS, as `none = none` does here). -/
structure AppData where
  version : Option String
  name : Option String
  icon : Option String

/-- Observable effects of one `notifyOnAppUpdate` invocation. -/
structure TriggerResult where
  storeRead : Bool
  gatewayCalled : Bool
  gatewayTokens : List String
  logAppended : Bool
  errored : Bool
deriving DecidableEq

/-- Lines 204-277: the `notifyOnAppUpdate` trigger.  `logOk` is whether the
awaited `notification_logs` append succeeds; its failure is rethrown by the
catch block (`errored`). -/
def notifyOnAppUpdate (before after : AppData) (store : List TokenDoc)
    (outcomes : List Outcome) (logOk : Bool) : TriggerResult :=
  if before.version = after.version then
    ⟨false, false, [], false, false⟩
  else
    let tokens := collectTokens store
    if tokens.length = 0 then
      ⟨true, false, [], false, false⟩
    else
      let _ := successCount outcomes
      if logOk then ⟨true, true, tokens, true, false⟩
      else ⟨true, true, tokens, false, true⟩

/-- Lines 283-316: the `cleanupTokens` scheduled job.  Deletes every document
with `timestamp < cutoff` (the 90-day cutoff) in one batch and reports the
count; returns the new store and the deleted count. -/
def cleanupTokens (store : List TokenDoc) (cutoff : Int) : List TokenDoc × Nat :=
  let snapshot := store.filter fun d => decide (d.timestamp < cutoff)
  (store.filter fun d => !decide (d.timestamp < cutoff), snapshot.length)

/-- One document of the `notification_logs` collection as read by the stats
endpoint; `sentCount`/`failureCount` fall back to `0` when absent (`|| 0`). -/
structure LogEntry where
  timestamp : Int
  sentCount : Option Nat
  failureCount : Option Nat

/-- The `successRate` field of the stats response: either the literal `"0%"`
or the rational percentage value that `toFixed(2) + percent-sign` formats. -/
inductive RateRepr
  | zeroPercent
  | percent (q : ℚ)
deriving DecidableEq

/-- The stats response body (lines 348-356). -/
structure Stats where
  totalTokens : Nat
  successRate : RateRepr
  sent : Nat
  failed : Nat
  total : Nat

/-- Lines 322-365: the `getNotificationStats` handler.  `cutoff` is the
30-days-ago timestamp; the window filter is `timestamp > cutoff`. -/
def getNotificationStats (store : List TokenDoc) (logs : List LogEntry)
    (cutoff : Int) : Stats :=
  let totalTokens := store.length
  let window := logs.filter fun l => decide (cutoff < l.timestamp)
  let totalSent : Nat := (window.map fun l => l.sentCount.getD 0).sum
  let totalFailed : Nat := (window.map fun l => l.failureCount.getD 0).sum
  { totalTokens := totalTokens
    successRate :=
      if 0 < totalSent then
        .percent ((totalSent : ℚ) / ((totalSent : ℚ) + (totalFailed : ℚ)) * 100)
      else .zeroPercent
    sent := totalSent
    failed := totalFailed
    total := totalSent + totalFailed }

/-- A well-formed `POST /send-notification` request: right method and the
required fields `appId`, `type` truthy. -/
def validSendReq (req : SendReq) : Prop :=
  req.method = "POST" ∧ jsTruthy req.appId = true ∧ jsTruthy req.type = true

/-! ## Helper lemmas -/

theorem ne_empty_of_mem_collectTokens {t : String} {store : List TokenDoc}
    (h : t ∈ collectTokens store) : t ≠ "" := by
  rcases List.mem_filterMap.mp h with ⟨d, _, hf⟩
  by_cases hex : d.docExists = true <;> by_cases htk : d.token = "" <;>
    simp [hex, htk] at hf
  exact hf ▸ htk

theorem exists_doc_of_mem_collectTokens {t : String} {store : List TokenDoc}
    (h : t ∈ collectTokens store) : ∃ d ∈ store, d.token = t := by
  rcases List.mem_filterMap.mp h with ⟨d, hd, hf⟩
  by_cases hex : d.docExists = true <;> by_cases htk : d.token = "" <;>
    simp [hex, htk] at hf
  exact ⟨d, hd, hf⟩

theorem mem_of_mem_reconcile_fst {queryOk : String → Bool} {deleteOk : Nat → Bool}
    {failed : List String} {store : List TokenDoc} {d : TokenDoc}
    (h : d ∈ (reconcile queryOk deleteOk failed store).1) : d ∈ store := by
  induction failed generalizing store with
  | nil => simpa [reconcile] using h
  | cons t rest ih =>
    rw [reconcile] at h
    by_cases hq : queryOk t = true
    · simp only [hq, if_true] at h
      have := ih h
      exact (List.mem_filter.mp this).1
    · simp only [hq, if_false] at h
      simpa using h

theorem token_ne_of_mem_reconcile_all {failed : List String} {store : List TokenDoc}
    {t : String} (ht : t ∈ failed) :
    ∀ d ∈ (reconcile (fun _ => true) (fun _ => true) failed store).1, d.token ≠ t := by
  induction failed generalizing store with
  | nil => cases ht
  | cons a rest ih =>
    intro d hd
    rw [reconcile] at hd
    simp only [if_true] at hd
    rcases List.mem_cons.mp ht with hta | htr
    · subst hta
      have hmem : d ∈ deleteTokenDocs (fun _ => true) t store :=
        mem_of_mem_reconcile_fst hd
      have := (List.mem_filter.mp hmem).2
      simpa [deleteTokenDocs] using this
    · exact ih htr d hd

theorem reconcile_snd_of_queryOk_all {deleteOk : Nat → Bool} {failed : List String}
    {store : List TokenDoc} :
    (reconcile (fun _ => true) deleteOk failed store).2 = true := by
  induction failed generalizing store with
  | nil => rfl
  | cons a rest ih => rw [reconcile]; simpa using ih

theorem mem_failedTokens {tokens : List String} {outcomes : List Outcome} {i : Nat}
    (hlen : outcomes.length = tokens.length) (hi : i < outcomes.length)
    (hit : i < tokens.length)
    (hsucc : outcomes[i].success = false)
    (hne : tokens[i] ≠ "") :
    tokens[i] ∈ failedTokens tokens outcomes := by
  have hiz : i < (outcomes.zip tokens).length := by
    simp [List.length_zip]; omega
  have hmemz : (outcomes[i], tokens[i]) ∈ outcomes.zip tokens := by
    have : (outcomes.zip tokens)[i] = (outcomes[i], tokens[i]) := List.getElem_zip
    rw [← this]
    exact List.getElem_mem hiz
  have hmemfm : tokens[i] ∈
      ((outcomes.zip tokens).filterMap fun p =>
        if p.1.success then none else some p.2) :=
    List.mem_filterMap.mpr ⟨_, hmemz, by simp [hsucc]⟩
  exact List.mem_filter.mpr ⟨hmemfm, by simpa using hne⟩

theorem failureCount_pos {outcomes : List Outcome} {i : Nat} (hi : i < outcomes.length)
    (hsucc : outcomes[i].success = false) : 0 < failureCount outcomes := by
  have hmem : outcomes[i] ∈ outcomes.filter fun o => !o.success :=
    List.mem_filter.mpr ⟨List.getElem_mem hi, by simp [hsucc]⟩
  exact List.length_pos_iff_ne_nil.mpr (List.ne_nil_of_mem hmem)

theorem sendNotification_finalStore {req : SendReq} {store : List TokenDoc}
    {outcomes : List Outcome} {queryOk : String → Bool} {deleteOk : Nat → Bool}
    (hreq : validSendReq req) (hne : (collectTokens store).length ≠ 0)
    (hfc : 0 < failureCount outcomes) :
    (sendNotification req store outcomes queryOk deleteOk).finalStore =
      (reconcile queryOk deleteOk (failedTokens (collectTokens store) outcomes) store).1 := by
  obtain ⟨hm, ha, ht⟩ := hreq
  rw [sendNotification]
  simp only [hm, ha, ht]
  simp only [String.reduceBEq, Bool.not_true, Bool.false_or, Bool.or_self, if_false,
    Bool.not_false]
  simp only [hne, if_false, hfc, if_true]
  by_cases hr : (reconcile queryOk deleteOk
      (failedTokens (collectTokens store) outcomes) store).2 = true <;>
    simp [hr]

theorem sendNotification_response_of_queryOk_all {req : SendReq} {store : List TokenDoc}
    {outcomes : List Outcome} {deleteOk : Nat → Bool}
    (hreq : validSendReq req) (hne : (collectTokens store).length ≠ 0) :
    (sendNotification req store outcomes (fun _ => true) deleteOk).response =
      HttpResponse.ok (successCount outcomes) (failureCount outcomes)
        (collectTokens store).length := by
  obtain ⟨hm, ha, ht⟩ := hreq
  rw [sendNotification]
  simp only [hm, ha, ht]
  simp only [String.reduceBEq, Bool.not_true, Bool.false_or, Bool.or_self, if_false,
    Bool.not_false]
  simp only [hne, if_false]
  by_cases hfc : 0 < failureCount outcomes
  · simp [hfc, reconcile_snd_of_queryOk_all]
  · simp [hfc]

theorem sendNotification_gatewayTokens {req : SendReq} {store : List TokenDoc}
    {outcomes : List Outcome} {queryOk : String → Bool} {deleteOk : Nat → Bool}
    (hreq : validSendReq req) (hne : (collectTokens store).length ≠ 0) :
    (sendNotification req store outcomes queryOk deleteOk).gatewayTokens =
      collectTokens store := by
  obtain ⟨hm, ha, ht⟩ := hreq
  rw [sendNotification]
  simp only [hm, ha, ht]
  simp only [String.reduceBEq, Bool.not_true, Bool.false_or, Bool.or_self, if_false,
    Bool.not_false]
  simp only [hne, if_false]
  by_cases hfc : 0 < failureCount outcomes
  · by_cases hr : (reconcile queryOk deleteOk
        (failedTokens (collectTokens store) outcomes) store).2 = true <;>
      simp [hfc, hr]
  · simp [hfc]

/-- Core pruning fact: with all store operations succeeding, any token whose
outcome failed is gone from the token list a later read would collect. -/
theorem failed_token_pruned {req : SendReq} {store : List TokenDoc}
    {outcomes : List Outcome} {i : Nat}
    (hreq : validSendReq req)
    (hlen : outcomes.length = (collectTokens store).length)
    (hi : i < outcomes.length) (hit : i < (collectTokens store).length)
    (hsucc : outcomes[i].success = false) :
    (collectTokens store)[i] ∉
      collectTokens (sendNotification req store outcomes
        (fun _ => true) (fun _ => true)).finalStore := by
  intro hmem
  have hne : (collectTokens store)[i] ≠ "" :=
    ne_empty_of_mem_collectTokens (List.getElem_mem hit)
  have hfc := failureCount_pos hi hsucc
  rw [sendNotification_finalStore hreq (by omega) hfc] at hmem
  rcases exists_doc_of_mem_collectTokens hmem with ⟨d, hd, hdt⟩
  exact token_ne_of_mem_reconcile_all
    (mem_failedTokens (by omega) hi hit hsucc hne) d hd hdt

theorem collectTokens_cons (d : TokenDoc) (rest : List TokenDoc) :
    collectTokens (d :: rest) =
      if d.docExists then
        (if d.token = "" then collectTokens rest else d.token :: collectTokens rest)
      else collectTokens rest := by
  rw [collectTokens, collectTokens, List.filterMap_cons]
  by_cases hex : d.docExists = true
  · by_cases htok : d.token = "" <;> simp [hex, htok]
  · simp [hex]

/-- The collected token list preserves multiplicity: a value `v` occurs in it
once per existing document whose `token` field is `v`. -/
theorem count_collectTokens (store : List TokenDoc) (v : String) (hv : v ≠ "") :
    (collectTokens store).count v =
      (store.filter fun d => d.docExists && d.token == v).length := by
  induction store with
  | nil => rfl
  | cons d rest ih =>
    rw [collectTokens_cons, List.filter_cons]
    by_cases hex : d.docExists = true
    · by_cases htok : d.token = ""
      · have hvne : ¬ ("" = v) := fun h => hv h.symm
        simp [hex, htok, hvne, ih]
      · by_cases heq : d.token = v
        · simp [hex, htok, heq, hv, List.count_cons, ih]
        · simp [hex, htok, heq, List.count_cons, ih]
    · have hex' : d.docExists = false := by simpa using hex
      simp [hex', ih]

/-! ## Claim theorems -/

/-- C1: for every broadcast via `sendNotification` and every delivery outcome
whose error kind is `InvalidHandle`, after the broadcast's reconciliation step
completes the corresponding token value is absent from the token store: a
subsequent `listAll`-style read collects no occurrence of it. -/
theorem c1_invalid_handle_pruned (req : SendReq) (store : List TokenDoc)
    (outcomes : List Outcome) (i : Nat)
    (hreq : validSendReq req)
    (hlen : outcomes.length = (collectTokens store).length)
    (hi : i < outcomes.length) (hit : i < (collectTokens store).length)
    (hk : outcomes[i].errorKind = some ErrorKind.InvalidHandle) :
    (collectTokens store)[i] ∉
      collectTokens (sendNotification req store outcomes
        (fun _ => true) (fun _ => true)).finalStore :=
  failed_token_pruned hreq hlen hi hit (by simp [Outcome.success, hk])

/-- C1 witness: a one-token store whose only outcome is `InvalidHandle`. -/
theorem c1_invalid_handle_pruned_witness :
    validSendReq ⟨"POST", some "a", none, some "UPDATE", none, none, none, none⟩ ∧
    ([Outcome.mk (some ErrorKind.InvalidHandle)])[0].errorKind =
      some ErrorKind.InvalidHandle ∧
    (collectTokens [⟨0, true, "A", 0⟩]).get ⟨0, by decide⟩ ∉
      collectTokens (sendNotification
        ⟨"POST", some "a", none, some "UPDATE", none, none, none, none⟩
        [⟨0, true, "A", 0⟩] [⟨some ErrorKind.InvalidHandle⟩]
        (fun _ => true) (fun _ => true)).finalStore :=
  by
  refine ⟨⟨rfl, rfl, rfl⟩, rfl, c1_invalid_handle_pruned _ _ _ 0 ?_ ?_ ?_ ?_ ?_⟩
  · exact ⟨rfl, rfl, rfl⟩
  · decide
  · decide
  · decide
  · rfl

/-- C2 counterexample: a token whose only delivery outcome is the
non-permanent `TransientFailure` is nevertheless deleted during
reconciliation — the store ends up empty, so the token did not remain. -/
theorem c2_transient_failure_pruned_cex :
    (sendNotification ⟨"POST", some "a", none, some "UPDATE", none, none, none, none⟩
      [⟨0, true, "A", 0⟩] [⟨some ErrorKind.TransientFailure⟩]
      (fun _ => true) (fun _ => true)).finalStore = [] := by
  decide

/-- C2 (amended): reconciliation deletes every token whose outcome failed,
whatever the error kind — `TransientFailure` and `QuotaExceeded` outcomes are
pruned exactly like `InvalidHandle` ones; only the error-agnostic `success`
flag is consulted. -/
theorem c2_any_failure_kind_pruned (req : SendReq) (store : List TokenDoc)
    (outcomes : List Outcome) (i : Nat) (k : ErrorKind)
    (hreq : validSendReq req)
    (hlen : outcomes.length = (collectTokens store).length)
    (hi : i < outcomes.length) (hit : i < (collectTokens store).length)
    (hk : outcomes[i].errorKind = some k) :
    (collectTokens store)[i] ∉
      collectTokens (sendNotification req store outcomes
        (fun _ => true) (fun _ => true)).finalStore :=
  failed_token_pruned hreq hlen hi hit (by simp [Outcome.success, hk])

/-- C2 amended witness: a `QuotaExceeded` outcome is pruned as well. -/
theorem c2_any_failure_kind_pruned_witness :
    validSendReq ⟨"POST", some "a", none, some "UPDATE", none, none, none, none⟩ ∧
    ([Outcome.mk (some ErrorKind.QuotaExceeded)])[0].errorKind =
      some ErrorKind.QuotaExceeded ∧
    (collectTokens [⟨0, true, "A", 0⟩]).get ⟨0, by decide⟩ ∉
      collectTokens (sendNotification
        ⟨"POST", some "a", none, some "UPDATE", none, none, none, none⟩
        [⟨0, true, "A", 0⟩] [⟨some ErrorKind.QuotaExceeded⟩]
        (fun _ => true) (fun _ => true)).finalStore :=
  by
  refine ⟨⟨rfl, rfl, rfl⟩, rfl,
    c2_any_failure_kind_pruned _ _ _ 0 ErrorKind.QuotaExceeded ?_ ?_ ?_ ?_ ?_⟩
  · exact ⟨rfl, rfl, rfl⟩
  · decide
  · decide
  · decide
  · rfl

/-- C3 counterexample: with two documents holding the same value `"A"`, the
multicast is invoked with `"A"` twice (not once) and the reported
`totalSent` is `2`, the number of occurrences, while there is exactly one
distinct value. -/
theorem c3_dedup_cex :
    (sendNotification ⟨"POST", some "a", none, some "UPDATE", none, none, none, none⟩
        [⟨0, true, "A", 0⟩, ⟨1, true, "A", 1⟩] [⟨none⟩, ⟨none⟩]
        (fun _ => true) (fun _ => true)).gatewayTokens.count "A" = 2 ∧
    (sendNotification ⟨"POST", some "a", none, some "UPDATE", none, none, none, none⟩
        [⟨0, true, "A", 0⟩, ⟨1, true, "A", 1⟩] [⟨none⟩, ⟨none⟩]
        (fun _ => true) (fun _ => true)).response = HttpResponse.ok 2 0 2 ∧
    (collectTokens [⟨0, true, "A", 0⟩, ⟨1, true, "A", 1⟩]).dedup.length = 1 := by
  refine ⟨by decide, by decide, by decide⟩

/-- C3 (amended): no deduplication happens — the gateway is invoked with the
collected token list as-is, one entry per existing document with a non-empty
token field (duplicates preserved), and `totalSent` is the number of
occurrences, not of distinct values. -/
theorem c3_no_dedup_multiplicity (req : SendReq) (store : List TokenDoc)
    (outcomes : List Outcome) (deleteOk : Nat → Bool)
    (hreq : validSendReq req) (hne : (collectTokens store).length ≠ 0) :
    (sendNotification req store outcomes (fun _ => true) deleteOk).gatewayTokens =
      collectTokens store ∧
    (∀ v : String, v ≠ "" →
      ((sendNotification req store outcomes (fun _ => true) deleteOk).gatewayTokens.count v =
        (store.filter fun d => d.docExists && d.token == v).length)) ∧
    (sendNotification req store outcomes (fun _ => true) deleteOk).response =
      HttpResponse.ok (successCount outcomes) (failureCount outcomes)
        (collectTokens store).length := by
  refine ⟨sendNotification_gatewayTokens hreq hne, ?_,
    sendNotification_response_of_queryOk_all hreq hne⟩
  intro v hv
  rw [sendNotification_gatewayTokens hreq hne]
  exact count_collectTokens store v hv

/-- C3 amended witness: duplicate store evaluated concretely. -/
theorem c3_no_dedup_multiplicity_witness :
    (sendNotification ⟨"POST", some "a", none, some "UPDATE", none, none, none, none⟩
        [⟨0, true, "A", 0⟩, ⟨1, true, "A", 1⟩] [⟨none⟩, ⟨none⟩]
        (fun _ => true) (fun _ => true)).gatewayTokens =
      collectTokens [⟨0, true, "A", 0⟩, ⟨1, true, "A", 1⟩] :=
  by
  refine (c3_no_dedup_multiplicity _ _ _ _ ?_ ?_).1
  · exact ⟨rfl, rfl, rfl⟩
  · decide

/-- C4 counterexample: the multicast itself succeeded (it returned a per-token
outcome list) but the reconciliation lookup for the failed token throws; the
handler's catch turns this into a 500 instead of the already-computed 200. -/
theorem c4_reconcile_query_failure_cex :
    (sendNotification ⟨"POST", some "a", none, some "UPDATE", none, none, none, none⟩
      [⟨0, true, "A", 0⟩] [⟨some ErrorKind.InvalidHandle⟩]
      (fun _ => false) (fun _ => true)).response = HttpResponse.serverError := by
  decide

/-- C4 (amended): provided every per-token reconciliation lookup succeeds, the
handler returns the 200 response with the already-computed counts no matter
which individual (un-awaited) document deletions fail; a failing lookup,
however, aborts reconciliation and produces a 500. -/
theorem c4_response_independent_of_delete_failures (req : SendReq)
    (store : List TokenDoc) (outcomes : List Outcome) (deleteOk : Nat → Bool)
    (hreq : validSendReq req) (hne : (collectTokens store).length ≠ 0) :
    (sendNotification req store outcomes (fun _ => true) deleteOk).response =
      HttpResponse.ok (successCount outcomes) (failureCount outcomes)
        (collectTokens store).length :=
  sendNotification_response_of_queryOk_all hreq hne

/-- C4 amended witness: every document delete fails, yet the response is the
200 with the computed counts. -/
theorem c4_response_independent_of_delete_failures_witness :
    (sendNotification ⟨"POST", some "a", none, some "UPDATE", none, none, none, none⟩
      [⟨0, true, "A", 0⟩] [⟨some ErrorKind.InvalidHandle⟩]
      (fun _ => true) (fun _ => false)).response =
      HttpResponse.ok (successCount [⟨some ErrorKind.InvalidHandle⟩])
        (failureCount [⟨some ErrorKind.InvalidHandle⟩])
        (collectTokens [⟨0, true, "A", 0⟩]).length :=
  by
  refine c4_response_independent_of_delete_failures _ _ _ _ ?_ ?_
  · exact ⟨rfl, rfl, rfl⟩
  · decide

/-- C5: a valid broadcast request over a store yielding no tokens is answered
with 404 and the gateway is never invoked. -/
theorem c5_no_targets_404 (req : SendReq) (store : List TokenDoc)
    (outcomes : List Outcome) (queryOk : String → Bool) (deleteOk : Nat → Bool)
    (hreq : validSendReq req) (hempty : collectTokens store = []) :
    (sendNotification req store outcomes queryOk deleteOk).response =
        HttpResponse.notFound ∧
    (sendNotification req store outcomes queryOk deleteOk).gatewayCalled = false := by
  obtain ⟨hm, ha, ht⟩ := hreq
  rw [sendNotification]
  simp [hm, ha, ht, hempty]

/-- C5 witness: documents exist but none carries a usable token. -/
theorem c5_no_targets_404_witness :
    (sendNotification ⟨"POST", some "a", none, some "UPDATE", none, none, none, none⟩
        [⟨0, false, "A", 0⟩, ⟨1, true, "", 0⟩] [] (fun _ => true) (fun _ => true)).response =
      HttpResponse.notFound ∧
    (sendNotification ⟨"POST", some "a", none, some "UPDATE", none, none, none, none⟩
        [⟨0, false, "A", 0⟩, ⟨1, true, "", 0⟩] [] (fun _ => true) (fun _ => true)).gatewayCalled =
      false :=
  by
  refine c5_no_targets_404 _ _ _ _ _ ?_ ?_
  · exact ⟨rfl, rfl, rfl⟩
  · decide

/-- C6: an update event whose `version` field is unchanged is a no-op — no
token-store read, no gateway send, no log append, no error — regardless of
what the other fields of the record did. -/
theorem c6_version_unchanged_noop (before after : AppData) (store : List TokenDoc)
    (outcomes : List Outcome) (logOk : Bool)
    (h : before.version = after.version) :
    notifyOnAppUpdate before after store outcomes logOk =
      ⟨false, false, [], false, false⟩ := by
  rw [notifyOnAppUpdate]
  simp [h]

/-- C6 witness: same version, every other field changed. -/
theorem c6_version_unchanged_noop_witness :
    notifyOnAppUpdate ⟨some "1.0", some "Old", none⟩ ⟨some "1.0", some "New", some "i"⟩
      [⟨0, true, "A", 0⟩] [⟨none⟩] true = ⟨false, false, [], false, false⟩ :=
  c6_version_unchanged_noop _ _ _ _ _ rfl

/-- C7: a request missing a required field (`appId` or `type` for the
broadcast endpoint; `appId` or `progress` for the progress endpoint) is
answered with 400 before any store read or gateway call, and a `progress`
value of `0` counts as present. -/
theorem c7_missing_required_fields_400 :
    (∀ (req : SendReq) (store : List TokenDoc) (outcomes : List Outcome)
        (queryOk : String → Bool) (deleteOk : Nat → Bool),
      req.method = "POST" → (req.appId = none ∨ req.type = none) →
      sendNotification req store outcomes queryOk deleteOk =
        ⟨.badRequest, false, false, [], store⟩) ∧
    (∀ (req : ProgressReq) (store : List TokenDoc) (outcomes : List Outcome),
      (req.appId = none ∨ req.progress = none) →
      sendDownloadProgress req store outcomes = ⟨.badRequest, false, false⟩) ∧
    (∀ (req : ProgressReq) (store : List TokenDoc) (outcomes : List Outcome),
      jsTruthy req.appId = true → req.progress = some 0 →
      (sendDownloadProgress req store outcomes).response ≠
        ProgressResponse.badRequest) := by
  refine ⟨?_, ?_, ?_⟩
  · intro req store outcomes queryOk deleteOk hm hmiss
    rw [sendNotification]
    rcases hmiss with h | h <;> simp [hm, h, jsTruthy]
  · intro req store outcomes hmiss
    rw [sendDownloadProgress]
    rcases hmiss with h | h <;> simp [h, jsTruthy]
  · intro req store outcomes ha hp
    rw [sendDownloadProgress]
    simp only [ha, hp, Option.isNone_some, Bool.not_true, Bool.false_or, if_false]
    by_cases hd : jsTruthy req.deviceToken = true
    · simp [hd]
    · by_cases hl : (collectTokens store).length = 0 <;> simp [hd, hl]

/-- C7 witness: each missing-field case and the `progress = 0` case evaluated
at concrete requests. -/
theorem c7_missing_required_fields_400_witness :
    sendNotification ⟨"POST", none, none, some "UPDATE", none, none, none, none⟩
        [⟨0, true, "A", 0⟩] [] (fun _ => true) (fun _ => true) =
      ⟨.badRequest, false, false, [], [⟨0, true, "A", 0⟩]⟩ ∧
    sendDownloadProgress ⟨some "a", none, none, none⟩ [⟨0, true, "A", 0⟩] [] =
      ⟨.badRequest, false, false⟩ ∧
    (sendDownloadProgress ⟨some "a", none, some 0, none⟩ [⟨0, true, "A", 0⟩] []).response ≠
      ProgressResponse.badRequest :=
  ⟨c7_missing_required_fields_400.1 _ _ _ _ _ rfl (Or.inl rfl),
   c7_missing_required_fields_400.2.1 _ _ _ (Or.inr rfl),
   c7_missing_required_fields_400.2.2 _ _ _ rfl rfl⟩

/-- C8 counterexample: a 30-day window containing one log entry with
`sentCount = 0` and `failureCount = 5` makes the handler report the literal
`"0%"` although `sent + failed = 5 ≠ 0` — so `"0%"` is not returned precisely
when `sent + failed = 0`. -/
theorem c8_zero_percent_guard_cex :
    (getNotificationStats [] [⟨1, some 0, some 5⟩] 0).successRate =
      RateRepr.zeroPercent ∧
    (getNotificationStats [] [⟨1, some 0, some 5⟩] 0).sent +
      (getNotificationStats [] [⟨1, some 0, some 5⟩] 0).failed ≠ 0 := by
  refine ⟨by decide, by decide⟩

/-- C8 (amended): the handler reports the literal `"0%"` precisely when the
windowed `sent` total is `0` (in particular whenever `sent + failed = 0`);
when `sent > 0` it reports `sent / (sent + failed) * 100` — whose denominator
is then nonzero, so no division by zero occurs. -/
theorem c8_success_rate_division_safe (store : List TokenDoc) (logs : List LogEntry)
    (cutoff : Int) :
    ((getNotificationStats store logs cutoff).successRate = RateRepr.zeroPercent ↔
      (getNotificationStats store logs cutoff).sent = 0) ∧
    (0 < (getNotificationStats store logs cutoff).sent →
      (getNotificationStats store logs cutoff).successRate =
        RateRepr.percent (((getNotificationStats store logs cutoff).sent : ℚ) /
          (((getNotificationStats store logs cutoff).sent : ℚ) +
            ((getNotificationStats store logs cutoff).failed : ℚ)) * 100) ∧
      (((getNotificationStats store logs cutoff).sent : ℚ) +
        ((getNotificationStats store logs cutoff).failed : ℚ)) ≠ 0) := by
  rw [getNotificationStats]
  set ts : Nat := (((logs.filter fun l => decide (cutoff < l.timestamp)).map
    fun l => l.sentCount.getD 0).sum) with hts
  set tf : Nat := (((logs.filter fun l => decide (cutoff < l.timestamp)).map
    fun l => l.failureCount.getD 0).sum) with htf
  by_cases h : 0 < ts
  · have hne : (ts : ℚ) + (tf : ℚ) ≠ 0 := by
      have h1 : (0 : ℚ) < (ts : ℚ) := by exact_mod_cast h
      have h2 : (0 : ℚ) ≤ (tf : ℚ) := by positivity
      linarith
    simp only [h, if_true]
    refine ⟨⟨fun hc => absurd hc (by simp), fun hc => absurd hc (by omega)⟩, ?_⟩
    intro _
    exact ⟨by simp, hne⟩
  · have h0 : ts = 0 := by omega
    simp [h, h0]

/-- C8 amended witness: a window with `sent = 3`, `failed = 1`. -/
theorem c8_success_rate_division_safe_witness :
    0 < (getNotificationStats [] [⟨1, some 3, some 1⟩] 0).sent ∧
    (getNotificationStats [] [⟨1, some 3, some 1⟩] 0).successRate =
      RateRepr.percent (((getNotificationStats [] [⟨1, some 3, some 1⟩] 0).sent : ℚ) /
        (((getNotificationStats [] [⟨1, some 3, some 1⟩] 0).sent : ℚ) +
          ((getNotificationStats [] [⟨1, some 3, some 1⟩] 0).failed : ℚ)) * 100) :=
  ⟨by decide, ((c8_success_rate_division_safe [] [⟨1, some 3, some 1⟩] 0).2 (by decide)).1⟩

/-- C9: running the cleanup job twice with the same cutoff and no new
registrations in between deletes nothing the second time: every document
older than the cutoff was already removed by the first run. -/
theorem c9_cleanup_idempotent (store : List TokenDoc) (cutoff : Int) :
    (cleanupTokens (cleanupTokens store cutoff).1 cutoff).2 = 0 := by
  rw [cleanupTokens, cleanupTokens]
  simp only [List.filter_filter]
  rw [List.length_eq_zero]
  rw [List.filter_eq_nil_iff]
  intro d _
  simp

/-- C10: an update event with a changed version over a store holding no
usable token returns normally — the store was read, but no gateway send, no
notification-log append and no error signal happen. -/
theorem c10_update_trigger_empty_tokens (before after : AppData) (store : List TokenDoc)
    (outcomes : List Outcome) (logOk : Bool)
    (hv : before.version ≠ after.version)
    (hempty : ∀ d ∈ store, d.docExists = false ∨ d.token = "") :
    notifyOnAppUpdate before after store outcomes logOk =
      ⟨true, false, [], false, false⟩ := by
  have hct : collectTokens store = [] := by
    rw [collectTokens, List.filterMap_eq_nil_iff]
    intro d hd
    rcases hempty d hd with h | h <;> simp [h]
  rw [notifyOnAppUpdate]
  simp [hv, hct]

/-- C10 witness: version bumped, one non-existing document and one with an
empty token field. -/
theorem c10_update_trigger_empty_tokens_witness :
    notifyOnAppUpdate ⟨some "1.0", some "App", none⟩ ⟨some "1.1", some "App", none⟩
      [⟨0, false, "A", 0⟩, ⟨1, true, "", 0⟩] [] true =
      ⟨true, false, [], false, false⟩ := by
  refine c10_update_trigger_empty_tokens _ _ _ _ _ ?_ ?_
  · decide
  · decide

end MirrorStore
